import Mathlib

/-!
Verification of the LMArenaBridge multi-instance orchestration core.

Shallow embedding of `modules/instance_coordinator.py`, `modules/health_monitor.py`
and `modules/load_balancer.py`. Python sets (`healthy_instances`,
`unhealthy_instances`, the registry key set of `browser_manager.instances`)
are modelled as `Finset String`; Python dicts whose iteration order matters
are modelled as association lists; monetary-free float arithmetic is modelled
over `ℚ`. Asynchronous calls that can fail (`BrowserInstance.initialize`)
are modelled by an explicit boolean outcome parameter, and the fresh UUIDs
produced by `BrowserManager.create_instance` are passed in explicitly.
-/

namespace LMArenaBridge

/-- Coordinator-owned pool state: the registry key set of
`browser_manager.instances` together with the two membership sets and the
scaling bounds (`InstanceCoordinator.__init__`). -/
structure PoolState where
  registry : Finset String
  healthy_instances : Finset String
  unhealthy_instances : Finset String
  min_instances : Nat
  max_instances : Nat
deriving DecidableEq

/-- `InstanceCoordinator.create_instance` (instance_coordinator.py lines
100-120): refuses when `len(browser_manager.instances) >= max_instances`;
otherwise delegates to `BrowserManager.create_instance`, whose outcome is the
`init_ok` flag and whose fresh UUID is `fresh_id`.  On success the id is put
into the registry and immediately added to `healthy_instances`. -/
def create_instance (s : PoolState) (fresh_id : String) (init_ok : Bool) :
    Option String × PoolState :=
  if s.max_instances ≤ s.registry.card then (none, s)
  else if init_ok then
    (some fresh_id,
      { s with
        registry := insert fresh_id s.registry
        healthy_instances := insert fresh_id s.healthy_instances })
  else (none, s)

/-- `InstanceCoordinator.remove_instance` (instance_coordinator.py lines
122-142): the healthy floor `len(healthy_instances) <= min_instances` is
checked first, unconditionally; then `BrowserManager.remove_instance`
succeeds exactly when the id is registered, after which the id is discarded
from both membership sets. -/
def remove_instance (s : PoolState) (instance_id : String) : Bool × PoolState :=
  if s.healthy_instances.card ≤ s.min_instances then (false, s)
  else if instance_id ∈ s.registry then
    (true,
      { s with
        registry := s.registry.erase instance_id
        healthy_instances := s.healthy_instances.erase instance_id
        unhealthy_instances := s.unhealthy_instances.erase instance_id })
  else (false, s)

/-- `InstanceCoordinator.initialize` (instance_coordinator.py lines 50-76):
creates `initial_count` instances by calling `BrowserManager.create_instance`
directly, with no `max_instances` check; `fresh_ids` are the ids of the
creations that succeeded (failed creations are only logged and skipped). -/
def initialize_pool (s : PoolState) (fresh_ids : List String) : PoolState :=
  fresh_ids.foldl
    (fun st id =>
      { st with
        registry := insert id st.registry
        healthy_instances := insert id st.healthy_instances })
    s

/-- One iteration sequence of `coordinator.create_instance` calls: the
`for _ in range(needed)` loop body of `HealthMonitor._check_replacement_needed`
(health_monitor.py lines 228-236), each call consuming one fresh id and one
initialization outcome. -/
def create_loop (s : PoolState) : List (String × Bool) → PoolState
  | [] => s
  | (id, ok) :: rest => create_loop (create_instance s id ok).2 rest

/-- `HealthMonitor._check_replacement_needed` (health_monitor.py lines
218-236): when `len(healthy) < min_instances` it computes the gap once and
issues that many `coordinator.create_instance` calls. -/
def check_replacement_needed (s : PoolState) (fresh : Nat → String × Bool) :
    PoolState :=
  if s.healthy_instances.card < s.min_instances then
    create_loop s ((List.range (s.min_instances - s.healthy_instances.card)).map fresh)
  else s

/-- Alert types fired by `HealthMonitor._trigger_alert`. -/
inductive Alert where
  | instance_failed (instance_id : String)
  | instance_recovered (instance_id : String)
  | high_failure_rate
  | high_response_time
  | no_healthy_instances
deriving DecidableEq

/-- Health-monitor view of the shared state: coordinator pool plus the
monitor's own failure counters (`HealthMonitor.__init__`). -/
structure HealthMonitorState where
  pool : PoolState
  instances_failed : Nat
  failed_health_checks : Nat
deriving DecidableEq

/-- `HealthMonitor._handle_instance_failure` (health_monitor.py lines
193-216): records `was_healthy`, moves the id into `unhealthy_instances`,
and only when `was_healthy` bumps the failure counters, fires the single
`instance_failed` alert and runs `_check_replacement_needed`.  Returned list
is the alerts fired by this call. -/
def handle_instance_failure (s : HealthMonitorState) (instance_id : String)
    (fresh : Nat → String × Bool) : HealthMonitorState × List Alert :=
  let pool :=
    { s.pool with
      unhealthy_instances := insert instance_id s.pool.unhealthy_instances
      healthy_instances := s.pool.healthy_instances.erase instance_id }
  if instance_id ∈ s.pool.healthy_instances then
    ({ pool := check_replacement_needed pool fresh
       instances_failed := s.instances_failed + 1
       failed_health_checks := s.failed_health_checks + 1 },
     [Alert.instance_failed instance_id])
  else ({ s with pool := pool }, [])

/-! ### Helper lemmas for the pool cap and membership -/

lemma create_instance_max_eq (s : PoolState) (id : String) (ok : Bool) :
    (create_instance s id ok).2.max_instances = s.max_instances := by
  unfold create_instance; split_ifs <;> rfl

lemma create_instance_cap (s : PoolState) (id : String) (ok : Bool)
    (h : s.registry.card ≤ s.max_instances) :
    (create_instance s id ok).2.registry.card ≤ s.max_instances := by
  unfold create_instance
  split_ifs with h1 h2
  · exact h
  · have := Finset.card_insert_le id s.registry
    simp only [not_le] at h1
    simpa using le_trans this (by omega)
  · exact h

lemma create_loop_cap (l : List (String × Bool)) (s : PoolState)
    (h : s.registry.card ≤ s.max_instances) :
    (create_loop s l).registry.card ≤ (create_loop s l).max_instances := by
  induction l generalizing s with
  | nil => exact h
  | cons p rest ih =>
      cases p with
      | mk id ok =>
          simp only [create_loop]
          exact ih _ ((create_instance_max_eq s id ok) ▸ create_instance_cap s id ok h)

lemma create_loop_max_eq (l : List (String × Bool)) (s : PoolState) :
    (create_loop s l).max_instances = s.max_instances := by
  induction l generalizing s with
  | nil => rfl
  | cons p rest ih =>
      cases p with
      | mk id ok =>
          simp only [create_loop]
          rw [ih, create_instance_max_eq]

lemma create_instance_not_mem_healthy (s : PoolState) (id : String) (ok : Bool)
    (i : String) (hi : i ∉ s.healthy_instances) (hne : id ≠ i) :
    i ∉ (create_instance s id ok).2.healthy_instances := by
  unfold create_instance
  split_ifs <;> simp_all [Finset.mem_insert, Ne.symm hne]

lemma create_loop_not_mem_healthy (l : List (String × Bool)) (s : PoolState)
    (i : String) (hi : i ∉ s.healthy_instances) (hl : ∀ p ∈ l, p.1 ≠ i) :
    i ∉ (create_loop s l).healthy_instances := by
  induction l generalizing s with
  | nil => exact hi
  | cons p rest ih =>
      cases p with
      | mk id ok =>
          simp only [create_loop]
          refine ih _ ?_ (fun q hq => hl q (List.mem_cons_of_mem _ hq))
          exact create_instance_not_mem_healthy s id ok i hi
            (hl (id, ok) (List.mem_cons_self _ _))

lemma check_replacement_not_mem_healthy (s : PoolState)
    (fresh : Nat → String × Bool) (i : String)
    (hi : i ∉ s.healthy_instances) (hf : ∀ k, (fresh k).1 ≠ i) :
    i ∉ (check_replacement_needed s fresh).healthy_instances := by
  unfold check_replacement_needed
  split_ifs with h
  · refine create_loop_not_mem_healthy _ s i hi ?_
    intro p hp
    obtain ⟨k, _, rfl⟩ := List.mem_map.mp hp
    exact hf k
  · exact hi

lemma handle_failure_alerts_of_healthy (s : HealthMonitorState) (i : String)
    (f : Nat → String × Bool) (h : i ∈ s.pool.healthy_instances) :
    (handle_instance_failure s i f).2 = [Alert.instance_failed i] := by
  unfold handle_instance_failure
  simp [h]

lemma handle_failure_alerts_of_unhealthy (s : HealthMonitorState) (i : String)
    (f : Nat → String × Bool) (h : i ∉ s.pool.healthy_instances) :
    (handle_instance_failure s i f).2 = [] := by
  unfold handle_instance_failure
  simp [h]

lemma handle_failure_pool_of_healthy (s : HealthMonitorState) (i : String)
    (f : Nat → String × Bool) (h : i ∈ s.pool.healthy_instances) :
    (handle_instance_failure s i f).1.pool =
      check_replacement_needed
        { s.pool with
          unhealthy_instances := insert i s.pool.unhealthy_instances
          healthy_instances := s.pool.healthy_instances.erase i } f := by
  unfold handle_instance_failure
  simp [h]

/-! ### Claim theorems -/

/-- C1 (counterexample): the claim says an instance already in the unhealthy
set may always be removed, the floor check never blocking it.  In the state
with registry `{a, b}`, `healthy = {a}`, `unhealthy = {b}` and
`min_instances = 1`, the instance `b` is unhealthy and registered, yet
`remove_instance` returns `false` solely because
`|healthy| <= min_instances`. -/
theorem remove_unhealthy_blocked_cex :
    (remove_instance ⟨{"a", "b"}, {"a"}, {"b"}, 1, 5⟩ "b").1 = false ∧
    "b" ∈ (⟨{"a", "b"}, {"a"}, {"b"}, 1, 5⟩ : PoolState).unhealthy_instances ∧
    "b" ∈ (⟨{"a", "b"}, {"a"}, {"b"}, 1, 5⟩ : PoolState).registry := by
  decide

/-- C1 (amended): `remove_instance` returns `false` whenever
`|healthy| <= min_instances`, regardless of whether the target instance is
healthy or unhealthy — the healthy-floor check is unconditional and blocks
removal of unhealthy instances too. -/
theorem remove_instance_floor_unconditional (s : PoolState) (instance_id : String)
    (h : s.healthy_instances.card ≤ s.min_instances) :
    (remove_instance s instance_id).1 = false := by
  unfold remove_instance
  simp [h]

/-- Witness for `remove_instance_floor_unconditional` at the concrete state of
the counterexample. -/
theorem remove_instance_floor_unconditional_witness :
    (⟨{"a", "b"}, {"a"}, {"b"}, 1, 5⟩ : PoolState).healthy_instances.card ≤ 1 ∧
    (remove_instance ⟨{"a", "b"}, {"a"}, {"b"}, 1, 5⟩ "b").1 = false :=
  ⟨by decide,
   remove_instance_floor_unconditional ⟨{"a", "b"}, {"a"}, {"b"}, 1, 5⟩ "b" (by decide)⟩

/-- C2 (counterexample): the claim says a freshly created instance is in
neither membership set until its first successful health probe.  Creating an
instance in an empty pool succeeds and the returned id is already a member of
`healthy_instances` when `create_instance` returns. -/
theorem create_not_in_neither_set_cex :
    (create_instance ⟨∅, ∅, ∅, 1, 5⟩ "a" true).1 = some "a" ∧
    "a" ∈ (create_instance ⟨∅, ∅, ∅, 1, 5⟩ "a" true).2.healthy_instances := by
  decide

/-- C2 (amended): on every successful `create_instance` call the new id is
immediately added to the healthy set, and (the fresh UUID not being a member
of the unhealthy set beforehand) it is not in the unhealthy set. -/
theorem create_instance_starts_healthy (s : PoolState) (fresh_id : String)
    (ok : Bool) (r : String)
    (hr : (create_instance s fresh_id ok).1 = some r)
    (hfresh : fresh_id ∉ s.unhealthy_instances) :
    r ∈ (create_instance s fresh_id ok).2.healthy_instances ∧
    r ∉ (create_instance s fresh_id ok).2.unhealthy_instances := by
  unfold create_instance at hr ⊢
  split_ifs at hr ⊢ with h1 h2
  have hid : fresh_id = r := by simpa using hr
  subst hid
  exact ⟨Finset.mem_insert_self _ _, hfresh⟩

/-- Witness for `create_instance_starts_healthy`: creating `"a"` in the empty
pool. -/
theorem create_instance_starts_healthy_witness :
    "a" ∈ (create_instance ⟨∅, ∅, ∅, 1, 5⟩ "a" true).2.healthy_instances ∧
    "a" ∉ (create_instance ⟨∅, ∅, ∅, 1, 5⟩ "a" true).2.unhealthy_instances :=
  create_instance_starts_healthy ⟨∅, ∅, ∅, 1, 5⟩ "a" true "a" (by decide) (by decide)

/-- C6: `_handle_instance_failure` fires `instance_failed` exactly once per
healthy→unhealthy edge: a failed probe on a currently healthy instance fires
exactly one `instance_failed` alert, and a further failed probe on the same
(now unhealthy) instance fires none — provided the replacement instances
created inside the first call carry fresh ids distinct from the failed one. -/
theorem instance_failed_alert_once_per_edge (s : HealthMonitorState) (i : String)
    (f g : Nat → String × Bool)
    (hh : i ∈ s.pool.healthy_instances)
    (hf : ∀ k, (f k).1 ≠ i) :
    (handle_instance_failure s i f).2 = [Alert.instance_failed i] ∧
    (handle_instance_failure (handle_instance_failure s i f).1 i g).2 = [] := by
  refine ⟨handle_failure_alerts_of_healthy s i f hh, ?_⟩
  have hnot : i ∉ (handle_instance_failure s i f).1.pool.healthy_instances := by
    rw [handle_failure_pool_of_healthy s i f hh]
    exact check_replacement_not_mem_healthy _ f i (Finset.not_mem_erase _ _) hf
  exact handle_failure_alerts_of_unhealthy _ i g hnot

/-- Witness for `instance_failed_alert_once_per_edge`: single healthy instance
`"a"` fails; the replacement stream provides the distinct id `"r"`. -/
theorem instance_failed_alert_once_per_edge_witness :
    "a" ∈ (⟨⟨{"a"}, {"a"}, ∅, 1, 5⟩, 0, 0⟩ : HealthMonitorState).pool.healthy_instances ∧
    (handle_instance_failure ⟨⟨{"a"}, {"a"}, ∅, 1, 5⟩, 0, 0⟩ "a" (fun _ => ("r", true))).2 =
      [Alert.instance_failed "a"] ∧
    (handle_instance_failure
      (handle_instance_failure ⟨⟨{"a"}, {"a"}, ∅, 1, 5⟩, 0, 0⟩ "a" (fun _ => ("r", true))).1
      "a" (fun _ => ("r", true))).2 = [] := by
  have h := instance_failed_alert_once_per_edge
    ⟨⟨{"a"}, {"a"}, ∅, 1, 5⟩, 0, 0⟩ "a" (fun _ => ("r", true)) (fun _ => ("r", true))
    (by decide) (fun _ => show ("r" : String) ≠ "a" by decide)
  exact ⟨by decide, h.1, h.2⟩

/-- C7 (counterexample): the claim says no coordinator operation, including
initial pool creation, grows the pool beyond `max_instances`.  But
`initialize` calls `browser_manager.create_instance` directly without the
cap check: with `max_instances = 1` and two successful initial creations the
registry holds 2 instances. -/
theorem pool_cap_initialize_cex :
    (⟨∅, ∅, ∅, 1, 1⟩ : PoolState).max_instances = 1 ∧
    (initialize_pool ⟨∅, ∅, ∅, 1, 1⟩ ["a", "b"]).registry.card = 2 := by
  decide

/-- C7 (amended): `create_instance` returns none when the registry has
reached `max_instances`, and both `create_instance` and the health monitor's
replacement loop (which goes through `create_instance`) preserve the bound
`|registry| <= max_instances`; `initialize` alone bypasses the check. -/
theorem pool_cap_create_preserved (s : PoolState) (id : String) (ok : Bool)
    (fresh : Nat → String × Bool)
    (hcap : s.registry.card ≤ s.max_instances) :
    (s.max_instances ≤ s.registry.card → (create_instance s id ok).1 = none) ∧
    (create_instance s id ok).2.registry.card ≤ s.max_instances ∧
    (check_replacement_needed s fresh).registry.card ≤ s.max_instances := by
  refine ⟨fun hfull => ?_, create_instance_cap s id ok hcap, ?_⟩
  · unfold create_instance
    simp [hfull]
  · unfold check_replacement_needed
    split_ifs with h
    · have h1 := create_loop_cap ((List.range (s.min_instances - s.healthy_instances.card)).map fresh) s hcap
      rwa [create_loop_max_eq] at h1
    · exact hcap

/-- Witness for `pool_cap_create_preserved`: a pool already at the cap rejects
creation and stays at the cap. -/
theorem pool_cap_create_preserved_witness :
    (⟨{"a"}, {"a"}, ∅, 1, 1⟩ : PoolState).registry.card ≤ 1 ∧
    (create_instance ⟨{"a"}, {"a"}, ∅, 1, 1⟩ "b" true).1 = none ∧
    (create_instance ⟨{"a"}, {"a"}, ∅, 1, 1⟩ "b" true).2.registry.card ≤ 1 ∧
    (check_replacement_needed ⟨{"a"}, {"a"}, ∅, 1, 1⟩ (fun _ => ("b", true))).registry.card ≤ 1 := by
  have h := pool_cap_create_preserved ⟨{"a"}, {"a"}, ∅, 1, 1⟩ "b" true
    (fun _ => ("b", true)) (by decide)
  exact ⟨by decide, h.1 (by decide), h.2.1, h.2.2⟩

/-! ### Load balancer (load_balancer.py) -/

/-- The `sum(1 for req in active_requests.values() if req.get('instance_id')
== instance_id)` pattern of `LoadBalancer._least_busy_strategy`: number of
active requests bound to `instance_id`.  `active` lists the dict values in
iteration order as (request_id, instance_id) pairs. -/
def active_count (active : List (String × String)) (instance_id : String) : Nat :=
  (active.filter (fun r => r.2 == instance_id)).length

/-- `LoadBalancer._least_busy_strategy` (load_balancer.py lines 135-150).
`healthy` is `list(self.coordinator.healthy_instances)` in the set's
iteration order; the dict `instance_loads` preserves that order, and
Python's `min` over its items returns the first item attaining the minimum
— modelled by the left fold keeping the incumbent on ties. -/
def least_busy_strategy (healthy : List String) (active : List (String × String)) :
    Option String :=
  match healthy with
  | [] => none
  | h :: t =>
      some (t.foldl
        (fun best i => if active_count active i < active_count active best then i else best) h)

/-- The retry loop of `LoadBalancer.route_request` (load_balancer.py lines
71-101).  `select` is the candidate `_select_instance` yields at a given
attempt index, `validate` the `_validate_instance` outcome at that attempt
(both indexed by the attempt because the shared pool state may change while
the loop sleeps between attempts).  Returns the routed instance, if any,
together with the number of selection attempts made. -/
def route_request_loop (select : Nat → Option String) (validate : Nat → String → Bool) :
    Nat → Nat → Option String × Nat
  | _, 0 => (none, 0)
  | attempt, fuel + 1 =>
      match select attempt with
      | none =>
          let r := route_request_loop select validate (attempt + 1) fuel
          (r.1, r.2 + 1)
      | some instance_id =>
          if validate attempt instance_id then (some instance_id, 1)
          else
            let r := route_request_loop select validate (attempt + 1) fuel
            (r.1, r.2 + 1)

/-- `LoadBalancer.route_request` (load_balancer.py lines 60-106): the
`for attempt in range(self.max_retries + 1)` loop, falling through to `none`
when every attempt fails; the surrounding `try/except` also returns `none`,
so the function is total. -/
def route_request (select : Nat → Option String) (validate : Nat → String → Bool)
    (max_retries : Nat) : Option String × Nat :=
  route_request_loop select validate 0 (max_retries + 1)

/-- `LoadBalancer._validate_instance` (load_balancer.py lines 217-240): the
candidate must be in the coordinator's healthy set, must exist in
`browser_manager.instances`, and its `status` must be exactly `"ready"`.
`status_of` models `browser_manager.get_instance` projected to the only
field read, `instance.status` (`none` = not registered). -/
def validate_instance (healthy : Finset String) (status_of : String → Option String)
    (instance_id : String) : Bool :=
  if instance_id ∉ healthy then false
  else
    match status_of instance_id with
    | none => false
    | some status => status == "ready"

/-- `InstanceCoordinator._calculate_current_load` (instance_coordinator.py
lines 371-380): returns `1.0` when there are no healthy instances, else
`min(active_count / available_count, 1.0)`, where `active_count =
len(active_requests)` and `available_count = len(healthy_instances)`. -/
def calculate_current_load (available_count active_count : Nat) : ℚ :=
  if available_count = 0 then 1
  else min ((active_count : ℚ) / (available_count : ℚ)) 1

/-- `instance_performance[instance_id]` as initialized by
`LoadBalancer._track_request` (load_balancer.py lines 252-260); the
`last_request_time` timestamp is not read by any claim and is omitted. -/
structure PerformanceRecord where
  total_requests : Nat
  total_response_time : ℚ
  avg_response_time : ℚ
  success_count : Nat
  error_count : Nat
deriving DecidableEq

/-- Effect of `LoadBalancer._track_request` on the routed instance's
PerformanceRecord (load_balancer.py lines 262-265): `total_requests += 1`
at routing time. -/
def track_request_perf (p : PerformanceRecord) : PerformanceRecord :=
  { p with total_requests := p.total_requests + 1 }

/-- Effect of `LoadBalancer.complete_request` on the instance's
PerformanceRecord (load_balancer.py lines 279-290): add the elapsed time,
recompute `avg_response_time = total_response_time / total_requests`, and
bump the success or error counter. -/
def complete_request_perf (p : PerformanceRecord) (response_time : ℚ) (success : Bool) :
    PerformanceRecord :=
  let total := p.total_response_time + response_time
  { p with
    total_response_time := total
    avg_response_time := total / (p.total_requests : ℚ)
    success_count := if success then p.success_count + 1 else p.success_count
    error_count := if success then p.error_count else p.error_count + 1 }

/-- An entry of the `LoadBalancer.active_requests` dict: the key
`request_id` together with the value fields read by `complete_request`. -/
structure ActiveRequest where
  request_id : String
  instance_id : String
  start_time : ℚ
deriving DecidableEq

/-- Load-balancer owned state restricted to the fields the claims read:
`active_requests` as the dict's entries in iteration order, and
`instance_performance` as a lookup map. -/
structure LBState where
  active_requests : List ActiveRequest
  instance_performance : String → Option PerformanceRecord

/-- `LoadBalancer.complete_request` (load_balancer.py lines 267-311): a
no-op when the request id is not an active key; otherwise pops the entry,
computes `response_time = time.time() - start_time` (`now` stands for
`time.time()`), and updates the instance's PerformanceRecord when one
exists.  The bounded `request_history` append is not read by any claim. -/
def LoadBalancer.complete_request (s : LBState) (request_id : String) (success : Bool)
    (now : ℚ) : LBState :=
  match s.active_requests.find? (fun r => r.request_id == request_id) with
  | none => s
  | some req =>
      { active_requests := s.active_requests.eraseP (fun r => r.request_id == request_id)
        instance_performance :=
          match s.instance_performance req.instance_id with
          | none => s.instance_performance
          | some p => fun x =>
              if x = req.instance_id then
                some (complete_request_perf p (now - req.start_time) success)
              else s.instance_performance x }

/-- `LoadBalancer.handle_instance_failure` (load_balancer.py lines 313-336):
collects the active request ids bound to the failed instance, completes each
of them with `success=False`, and afterwards additionally increases the
instance's `error_count` by the number of collected requests in bulk. -/
def LoadBalancer.handle_instance_failure (s : LBState) (instance_id : String)
    (now : ℚ) : LBState :=
  let failed_requests :=
    (s.active_requests.filter (fun r => r.instance_id == instance_id)).map
      (fun r => r.request_id)
  let s1 := failed_requests.foldl
    (fun st rid => LoadBalancer.complete_request st rid false now) s
  match s1.instance_performance instance_id with
  | none => s1
  | some p =>
      { s1 with
        instance_performance := fun x =>
          if x = instance_id then
            some { p with error_count := p.error_count + failed_requests.length }
          else s1.instance_performance x }

/-! ### Argmin lemmas for the least-busy fold -/

lemma foldl_min_mem (c : String → Nat) (t : List String) (h : String) :
    t.foldl (fun best i => if c i < c best then i else best) h ∈ h :: t := by
  induction t generalizing h with
  | nil => simp
  | cons i rest ih =>
      simp only [List.foldl]
      split_ifs with hc
      · exact List.mem_cons_of_mem _ (ih i)
      · rcases List.mem_cons.mp (ih h) with hh | hm
        · rw [hh]
          exact List.mem_cons_self _ _
        · exact List.mem_cons_of_mem _ (List.mem_cons_of_mem _ hm)

lemma foldl_min_le (c : String → Nat) (t : List String) (h : String) :
    ∀ x ∈ h :: t,
      c (t.foldl (fun best i => if c i < c best then i else best) h) ≤ c x := by
  induction t generalizing h with
  | nil =>
      intro x hx
      rcases List.mem_cons.mp hx with rfl | hx0
      · exact le_refl _
      · simp at hx0
  | cons i rest ih =>
      intro x hx
      simp only [List.foldl]
      have hstep : c (if c i < c h then i else h) ≤ c h ∧
          c (if c i < c h then i else h) ≤ c i := by
        split_ifs with hc
        · exact ⟨le_of_lt hc, le_refl _⟩
        · exact ⟨le_refl _, le_of_not_lt hc⟩
      have hbase := ih (if c i < c h then i else h) _ (List.mem_cons_self _ _)
      rcases List.mem_cons.mp hx with rfl | hx1
      · exact le_trans hbase hstep.1
      · rcases List.mem_cons.mp hx1 with rfl | hx2
        · exact le_trans hbase hstep.2
        · exact ih _ x (List.mem_cons_of_mem _ hx2)

lemma foldl_min_first (c : String → Nat) (t : List String) (h : String) :
    (h :: t).find?
        (fun x => c x == c (t.foldl (fun best i => if c i < c best then i else best) h)) =
      some (t.foldl (fun best i => if c i < c best then i else best) h) := by
  induction t generalizing h with
  | nil =>
      rw [List.find?_cons]
      simp
  | cons i rest ih =>
      simp only [List.foldl]
      split_ifs with hc
      · have hr_le : c (rest.foldl (fun best j => if c j < c best then j else best) i) ≤ c i :=
          foldl_min_le c rest i _ (List.mem_cons_self _ _)
        have hh : (c h == c (rest.foldl (fun best j => if c j < c best then j else best) i)) = false := by
          simp only [beq_eq_false_iff_ne, ne_eq]
          omega
        rw [List.find?_cons, hh]
        exact ih i
      · have hr_le : c (rest.foldl (fun best j => if c j < c best then j else best) h) ≤ c h :=
          foldl_min_le c rest h _ (List.mem_cons_self _ _)
        by_cases he : c h = c (rest.foldl (fun best j => if c j < c best then j else best) h)
        · have hpos : (c h == c (rest.foldl (fun best j => if c j < c best then j else best) h)) = true := by
            simp [he]
          have h1 := ih h
          rw [List.find?_cons, hpos] at h1
          rw [List.find?_cons, hpos]
          exact h1
        · have hneg : (c h == c (rest.foldl (fun best j => if c j < c best then j else best) h)) = false := by
            simp only [beq_eq_false_iff_ne, ne_eq]
            exact he
          have hnegi : (c i == c (rest.foldl (fun best j => if c j < c best then j else best) h)) = false := by
            simp only [beq_eq_false_iff_ne, ne_eq]
            have hhi : c h ≤ c i := le_of_not_lt hc
            omega
          have h1 := ih h
          rw [List.find?_cons, hneg] at h1
          rw [List.find?_cons, hneg, List.find?_cons, hnegi]
          exact h1

/-- C3 (counterexample): the claim says ties among minimal active-request
counts resolve to the earliest-created instance, not map iteration order.
Both instances tie at 0 active requests, yet the strategy's result follow
the iteration order of the healthy set: when the set happens to iterate as
`["b", "a"]` — even though `"a"` was created first — the strategy returns
`"b"`; for iteration order `["a", "b"]` it returns `"a"`.  The result is
thus a function of iteration order, not of creation sequence. -/
theorem least_busy_tiebreak_cex :
    least_busy_strategy ["b", "a"] [] = some "b" ∧
    least_busy_strategy ["a", "b"] [] = some "a" ∧
    active_count [] "a" = active_count [] "b" := by
  decide

/-- C3 (amended): on a nonempty healthy snapshot, `_least_busy_strategy`
returns an instance whose active-request count equals the minimum over the
healthy set, and among tied instances it returns the first in the set's
iteration order (`find?` of the minimal count) — not the earliest-created
one. -/
theorem least_busy_first_minimum (healthy : List String)
    (active : List (String × String)) (hne : healthy ≠ []) :
    ∃ i, least_busy_strategy healthy active = some i ∧
      i ∈ healthy ∧
      (∀ x ∈ healthy, active_count active i ≤ active_count active x) ∧
      healthy.find? (fun x => active_count active x == active_count active i) = some i := by
  match healthy with
  | [] => exact absurd rfl hne
  | h :: t =>
      exact ⟨_, rfl, foldl_min_mem _ t h, foldl_min_le _ t h, foldl_min_first _ t h⟩

/-- Witness for `least_busy_first_minimum` on a concrete snapshot with one
active request bound to `"b"`. -/
theorem least_busy_first_minimum_witness :
    (["b", "a"] : List String) ≠ [] ∧
    ∃ i, least_busy_strategy ["b", "a"] [("r1", "b")] = some i ∧
      i ∈ ["b", "a"] ∧
      (∀ x ∈ ["b", "a"], active_count [("r1", "b")] i ≤ active_count [("r1", "b")] x) ∧
      (["b", "a"] : List String).find?
        (fun x => active_count [("r1", "b")] x == active_count [("r1", "b")] i) = some i :=
  ⟨by decide, least_busy_first_minimum ["b", "a"] [("r1", "b")] (by decide)⟩

/-! ### Routing retry budget -/

lemma route_loop_attempts_le (select : Nat → Option String)
    (validate : Nat → String → Bool) :
    ∀ fuel attempt, (route_request_loop select validate attempt fuel).2 ≤ fuel := by
  intro fuel
  induction fuel with
  | zero => intro attempt; simp [route_request_loop]
  | succ n ih =>
      intro attempt
      simp only [route_request_loop]
      cases hsel : select attempt with
      | none => simpa using Nat.succ_le_succ (ih (attempt + 1))
      | some i =>
          by_cases hv : validate attempt i
          · simp [hv]
          · simpa [hv] using Nat.succ_le_succ (ih (attempt + 1))

lemma route_loop_none (select : Nat → Option String)
    (validate : Nat → String → Bool)
    (hfail : ∀ k i, select k = some i → validate k i = false) :
    ∀ fuel attempt, (route_request_loop select validate attempt fuel).1 = none := by
  intro fuel
  induction fuel with
  | zero => intro attempt; rfl
  | succ n ih =>
      intro attempt
      simp only [route_request_loop]
      cases hsel : select attempt with
      | none => simpa using ih (attempt + 1)
      | some i =>
          have hv := hfail attempt i hsel
          simp [hv, ih (attempt + 1)]

/-- C4: `route_request` makes at most `max_retries + 1` selection attempts,
and when every selection attempt fails to yield a validated instance it
returns `none`; the embedding is a total function, matching the source's
`try/except` which converts any escaped error into `none` as well. -/
theorem route_request_retry_budget (select : Nat → Option String)
    (validate : Nat → String → Bool) (max_retries : Nat) :
    (route_request select validate max_retries).2 ≤ max_retries + 1 ∧
    ((∀ k i, select k = some i → validate k i = false) →
      (route_request select validate max_retries).1 = none) :=
  ⟨route_loop_attempts_le select validate (max_retries + 1) 0,
   fun hfail => route_loop_none select validate hfail (max_retries + 1) 0⟩

/-- Witness for `route_request_retry_budget`: no instance is ever selectable
and `max_retries = 3`. -/
theorem route_request_retry_budget_witness :
    (route_request (fun _ => none) (fun _ _ => false) 3).2 ≤ 4 ∧
    (route_request (fun _ => none) (fun _ _ => false) 3).1 = none :=
  ⟨(route_request_retry_budget (fun _ => none) (fun _ _ => false) 3).1,
   (route_request_retry_budget (fun _ => none) (fun _ _ => false) 3).2
     (fun _ _ h => Option.noConfusion h)⟩

/-- C5 (counterexample): the claim says an instance in the degraded ready
state (the reduced-capability fallback mode, status `'ready_fallback'` set
by `BrowserInstance._setup_fallback_mode`) passes validation.  A registered
instance that is in the healthy set but reports `'ready_fallback'` fails
`_validate_instance`, because the code accepts only the exact status
`'ready'`. -/
theorem validate_degraded_fails_cex :
    validate_instance {"a"} (fun x => if x = "a" then some "ready_fallback" else none) "a"
      = false ∧
    "a" ∈ ({"a"} : Finset String) ∧
    (fun x => if x = "a" then some "ready_fallback" else none) "a" = some "ready_fallback" := by
  refine ⟨by decide, by decide, by decide⟩

/-- C5 (amended): validation succeeds iff the candidate is in the healthy
set, exists in the registry, and reports status exactly `"ready"`; any other
status — including the degraded `"ready_fallback"` — fails validation. -/
theorem validate_instance_ready_only (healthy : Finset String)
    (status_of : String → Option String) (i : String) :
    validate_instance healthy status_of i = true ↔
      i ∈ healthy ∧ status_of i = some "ready" := by
  unfold validate_instance
  split_ifs with h
  · cases hst : status_of i with
    | none => simp [h, hst]
    | some st => simp [h, hst, beq_iff_eq]
  · simp [h]

/-- C8 (counterexample): the claim says the load factor is
`active / max(|healthy|, 1)` clamped to [0,1], hence `0` for an empty pool
with no active requests.  The code returns `1.0` whenever the healthy set is
empty. -/
theorem load_factor_empty_pool_cex :
    calculate_current_load 0 0 = 1 ∧
    (0 : ℚ) / ((max 0 1 : Nat) : ℚ) = 0 := by
  constructor
  · rfl
  · norm_num

/-- C8 (amended): the load factor is `1` when the healthy set is empty;
otherwise it equals `active / max(|healthy|, 1)` clamped to `[0, 1]`
(for a nonempty healthy set the denominator guard and the lower clamp are
both inactive, so the code's `min(active/|healthy|, 1)` coincides with the
clamped formula). -/
theorem load_factor_formula (available_count active_count : Nat) :
    calculate_current_load available_count active_count =
      if available_count = 0 then 1
      else max 0 (min ((active_count : ℚ) / ((max available_count 1 : Nat) : ℚ)) 1) := by
  unfold calculate_current_load
  split_ifs with h
  · rfl
  · have h1 : (max available_count 1) = available_count := by omega
    rw [h1, max_eq_right]
    exact le_min (div_nonneg (Nat.cast_nonneg _) (Nat.cast_nonneg _)) zero_le_one

/-- C9: for sequential route+complete pairs (so that `total_requests` counts
exactly the completed requests), `complete_request` updates the average by
the running mean `avg_n = avg_(n-1) * (n-1)/n + sample/n`, where `n` is the
new completion count.  The hypothesis states consistency of the incoming
record: its total time is its average times its count (true initially and
preserved by every sequential step). -/
theorem avg_running_mean (p : PerformanceRecord) (response_time : ℚ) (success : Bool)
    (h : p.total_response_time = p.avg_response_time * (p.total_requests : ℚ)) :
    (complete_request_perf (track_request_perf p) response_time success).avg_response_time =
      p.avg_response_time * (p.total_requests : ℚ) / ((p.total_requests : ℚ) + 1)
        + response_time / ((p.total_requests : ℚ) + 1) := by
  simp only [complete_request_perf, track_request_perf]
  rw [h]
  push_cast
  rw [div_add_div_same]

/-- Witness for `avg_running_mean`: the 2s, 4s, 6s sequence of the spec.
After completions with samples 2, 4, 6 the averages are 2, 3, 4; the last
step is obtained by applying the running-mean theorem to the record
reached after the first two completions. -/
theorem avg_running_mean_witness :
    (complete_request_perf (track_request_perf ⟨0, 0, 0, 0, 0⟩) 2 true).avg_response_time
      = 2 ∧
    (complete_request_perf
      (track_request_perf (complete_request_perf (track_request_perf ⟨0, 0, 0, 0, 0⟩) 2 true))
      4 true).avg_response_time = 3 ∧
    ((⟨2, 6, 3, 2, 0⟩ : PerformanceRecord).total_response_time =
      (⟨2, 6, 3, 2, 0⟩ : PerformanceRecord).avg_response_time *
        ((⟨2, 6, 3, 2, 0⟩ : PerformanceRecord).total_requests : ℚ)) ∧
    (complete_request_perf (track_request_perf ⟨2, 6, 3, 2, 0⟩) 6 true).avg_response_time
      = 4 := by
  refine ⟨by norm_num [complete_request_perf, track_request_perf],
    by norm_num [complete_request_perf, track_request_perf], by norm_num, ?_⟩
  rw [avg_running_mean ⟨2, 6, 3, 2, 0⟩ 6 true (by norm_num)]
  norm_num

/-! ### Orphaned-request failover and the error counter -/

lemma find?_active_key (s : LBState) (req : ActiveRequest)
    (hmem : req ∈ s.active_requests)
    (hnodup : (s.active_requests.map (fun r => r.request_id)).Nodup) :
    s.active_requests.find? (fun r => r.request_id == req.request_id) = some req := by
  cases hfind : s.active_requests.find? (fun r => r.request_id == req.request_id) with
  | none =>
      exfalso
      rw [List.find?_eq_none] at hfind
      exact hfind req hmem (by simp)
  | some e =>
      have hpe := List.find?_some hfind
      have hme := List.mem_of_find?_eq_some hfind
      have he : e = req :=
        List.inj_on_of_nodup_map hnodup hme hmem (by simpa using hpe)
      rw [he]

lemma complete_request_perf_error (p : PerformanceRecord) (t : ℚ) :
    (complete_request_perf p t false).error_count = p.error_count + 1 := by
  simp [complete_request_perf]

lemma complete_request_step (s : LBState) (req : ActiveRequest) (now : ℚ)
    (p : PerformanceRecord)
    (hmem : req ∈ s.active_requests)
    (hnodup : (s.active_requests.map (fun r => r.request_id)).Nodup)
    (hp : s.instance_performance req.instance_id = some p) :
    (LoadBalancer.complete_request s req.request_id false now).active_requests =
      s.active_requests.eraseP (fun r => r.request_id == req.request_id) ∧
    (LoadBalancer.complete_request s req.request_id false now).instance_performance
        req.instance_id = some (complete_request_perf p (now - req.start_time) false) := by
  simp only [LoadBalancer.complete_request, find?_active_key s req hmem hnodup, hp]
  exact ⟨by trivial, by simp⟩

lemma fold_complete_errors (now : ℚ) (i : String) :
    ∀ (rids : List String) (s : LBState) (p : PerformanceRecord),
      (s.active_requests.map (fun r => r.request_id)).Nodup →
      s.instance_performance i = some p →
      (∀ rid ∈ rids, ∃ req ∈ s.active_requests,
        req.request_id = rid ∧ req.instance_id = i) →
      rids.Nodup →
      ∃ q,
        (rids.foldl (fun st rid => LoadBalancer.complete_request st rid false now)
            s).instance_performance i = some q ∧
        q.error_count = p.error_count + rids.length := by
  intro rids
  induction rids with
  | nil =>
      intro s p hnd hp _ _
      exact ⟨p, hp, by simp⟩
  | cons rid rest ih =>
      intro s p hnd hp hmem hrnd
      obtain ⟨req, hreqmem, hreqid, hreqinst⟩ := hmem rid (List.mem_cons_self _ _)
      have hp0 : s.instance_performance req.instance_id = some p := by
        rw [hreqinst]; exact hp
      have hstep := complete_request_step s req now p hreqmem hnd hp0
      have hp1 : (LoadBalancer.complete_request s req.request_id false now).instance_performance i
          = some (complete_request_perf p (now - req.start_time) false) := by
        rw [← hreqinst]; exact hstep.2
      have hnd1 : ((LoadBalancer.complete_request s req.request_id false now).active_requests.map
          (fun r => r.request_id)).Nodup := by
        rw [hstep.1]
        exact hnd.sublist ((List.eraseP_sublist _).map _)
      have hmem1 : ∀ rid' ∈ rest,
          ∃ req' ∈ (LoadBalancer.complete_request s req.request_id false now).active_requests,
            req'.request_id = rid' ∧ req'.instance_id = i := by
        intro rid' hrid'
        obtain ⟨req', hm', hid', hinst'⟩ := hmem rid' (List.mem_cons_of_mem _ hrid')
        refine ⟨req', ?_, hid', hinst'⟩
        rw [hstep.1]
        refine (List.mem_eraseP_of_neg ?_).mpr hm'
        have hne : rid' ≠ rid := by
          rintro rfl
          exact (List.nodup_cons.mp hrnd).1 hrid'
        simp only [beq_iff_eq, hid', hreqid]
        exact hne
      obtain ⟨q, hq1, hq2⟩ := ih (LoadBalancer.complete_request s req.request_id false now)
        (complete_request_perf p (now - req.start_time) false)
        hnd1 hp1 hmem1 (List.nodup_cons.mp hrnd).2
      refine ⟨q, ?_, ?_⟩
      · rw [List.foldl_cons, ← hreqid] at *
        exact hq1
      · rw [hq2, complete_request_perf_error]
        simp only [List.length_cons]
        omega

/-- C10: `handle_instance_failure(i)` with exactly `k` active requests bound
to instance `i` increases `i`'s `error_count` by exactly `2k`: completing
each orphaned request as a failure adds one per request, and the bulk update
afterwards adds `k` again.  The hypotheses say the active-request dict has
(necessarily) unique keys and that `i` has a performance record. -/
theorem handle_failure_double_error_count (s : LBState) (i : String) (now : ℚ)
    (p : PerformanceRecord)
    (hnodup : (s.active_requests.map (fun r => r.request_id)).Nodup)
    (hp : s.instance_performance i = some p) :
    ∃ q, (LoadBalancer.handle_instance_failure s i now).instance_performance i = some q ∧
      q.error_count = p.error_count +
        2 * (s.active_requests.filter (fun r => r.instance_id == i)).length := by
  have hmem : ∀ rid ∈ (s.active_requests.filter (fun r => r.instance_id == i)).map
      (fun r => r.request_id),
      ∃ req ∈ s.active_requests, req.request_id = rid ∧ req.instance_id = i := by
    intro rid hrid
    obtain ⟨req, hreq, rfl⟩ := List.mem_map.mp hrid
    have hf := List.mem_filter.mp hreq
    exact ⟨req, hf.1, rfl, by simpa using hf.2⟩
  have hrnd : ((s.active_requests.filter (fun r => r.instance_id == i)).map
      (fun r => r.request_id)).Nodup :=
    hnodup.sublist ((List.filter_sublist _).map _)
  obtain ⟨q1, hq1, he1⟩ := fold_complete_errors now i
    ((s.active_requests.filter (fun r => r.instance_id == i)).map (fun r => r.request_id))
    s p hnodup hp hmem hrnd
  simp only [LoadBalancer.handle_instance_failure, hq1, if_true]
  refine ⟨_, rfl, ?_⟩
  show q1.error_count +
      ((s.active_requests.filter (fun r => r.instance_id == i)).map
        (fun r => r.request_id)).length =
    p.error_count + 2 * (s.active_requests.filter (fun r => r.instance_id == i)).length
  rw [he1, List.length_map]
  omega

/-- Witness for `handle_failure_double_error_count`: two active requests on
instance `"a"`, one on `"b"`; `"a"`'s error counter goes from 0 to 4. -/
theorem handle_failure_double_error_count_witness :
    ((([⟨"r1", "a", 0⟩, ⟨"r2", "b", 0⟩, ⟨"r3", "a", 1⟩] : List ActiveRequest).map
      (fun r => r.request_id)).Nodup) ∧
    ∃ q, (LoadBalancer.handle_instance_failure
        ⟨[⟨"r1", "a", 0⟩, ⟨"r2", "b", 0⟩, ⟨"r3", "a", 1⟩],
          fun x => if x = "a" then some ⟨2, 0, 0, 0, 0⟩ else none⟩ "a" 5).instance_performance
        "a" = some q ∧
      q.error_count = (⟨2, 0, 0, 0, 0⟩ : PerformanceRecord).error_count +
        2 * (([⟨"r1", "a", 0⟩, ⟨"r2", "b", 0⟩, ⟨"r3", "a", 1⟩] : List ActiveRequest).filter
          (fun r => r.instance_id == "a")).length :=
  ⟨by decide,
   handle_failure_double_error_count
     ⟨[⟨"r1", "a", 0⟩, ⟨"r2", "b", 0⟩, ⟨"r3", "a", 1⟩],
       fun x => if x = "a" then some ⟨2, 0, 0, 0, 0⟩ else none⟩ "a" 5
     ⟨2, 0, 0, 0, 0⟩ (by decide) (by simp)⟩

end LMArenaBridge
